/-
Verification of the teen content filter (src/server/content-filter.py).

The script decodes a base64 image, runs an external nudity detector, reduces
the detections to a per-label maximum-confidence map, and applies a fixed
threshold policy, with a catch-all that converts any internal failure into a
fail-closed verdict.  The external collaborators (PIL image parsing and the
NudeNet model) are modelled as function parameters returning Except values;
confidences are embedded as rationals.
-/
import Mathlib

set_option linter.unusedVariables false

/-- A detection record returned by the external model: a label (the Python
dict key named class) and a confidence score. -/
structure Detection where
  cls : String
  score : ℚ
deriving DecidableEq

/-- The aggregated score map, embedding the Python dict as an association
list in insertion order. -/
abbrev ScoreMap := List (String × ℚ)

/-- Python scores.get(label, 0). -/
def getScore (scores : ScoreMap) (label : String) : ℚ :=
  (scores.lookup label).getD 0

/-- Python dict assignment scores[label] = v: update in place when the key
exists, append otherwise. -/
def setScore : ScoreMap → String → ℚ → ScoreMap
  | [], label, v => [(label, v)]
  | (k, w) :: rest, label, v =>
    if k = label then (k, v) :: rest else (k, w) :: setScore rest label v

/-- One iteration of the aggregation loop of check_image_content: the source
first inserts 0 for a fresh label, then stores
max(scores[label], confidence), which is max(getScore scores label, score). -/
def aggStep (scores : ScoreMap) (d : Detection) : ScoreMap :=
  setScore scores d.cls (max (getScore scores d.cls) d.score)

/-- The score aggregator of check_image_content (the for-loop over
detections starting from the empty dict). -/
def aggregate (detections : List Detection) : ScoreMap :=
  detections.foldl aggStep []

/-- The verdict dict produced on every path: appropriate flag, score map,
human-readable message. -/
structure Verdict where
  appropriate : Bool
  scores : ScoreMap
  message : String
deriving DecidableEq

/-- Very strict threshold for explicit content (0.2 in the source). -/
def explicit_threshold : ℚ := mkRat 2 10

/-- Strict threshold for suggestive content (0.3 in the source); bound in
the source but used only by the commented-out moderate-risk check. -/
def suggestive_threshold : ℚ := mkRat 3 10

/-- The broad label list bound in the source; it is never read by any
active check. -/
def inappropriate_labels : List String :=
  ["EXPOSED_ANUS", "EXPOSED_ARMPITS", "EXPOSED_BELLY", "EXPOSED_BUTTOCKS",
   "EXPOSED_BREAST_F", "EXPOSED_BREAST_M", "EXPOSED_GENITALIA_F",
   "EXPOSED_GENITALIA_M", "EXPOSED_FEET", "FACE_F", "FACE_M"]

/-- The high-risk labels checked against explicit_threshold, in the fixed
iteration order of the source list. -/
def high_risk_labels : List String :=
  ["EXPOSED_ANUS", "EXPOSED_BUTTOCKS", "EXPOSED_BREAST_F",
   "EXPOSED_GENITALIA_F", "EXPOSED_GENITALIA_M"]

/-- Round q*100 to the nearest integer, ties to even, computed on the
numerator and denominator so that the kernel can evaluate it.  This models
the rounding step of Python two-decimal fixed-point formatting. -/
def round2 (q : ℚ) : Int :=
  let n : Int := q.num * 100
  let d : Int := (q.den : Int)
  let f : Int := Int.fdiv n d
  let r : Int := n - f * d
  if 2 * r < d then f
  else if d < 2 * r then f + 1
  else if f % 2 = 0 then f else f + 1

/-- Left-pad a two-digit fraction part with a zero. -/
def pad2 (n : Nat) : String :=
  if n < 10 then "0" ++ toString n else toString n

/-- Fixed-point rendering of a confidence with two decimal places, the
shape produced by the format specifier .2f in the source messages. -/
def format2 (q : ℚ) : String :=
  let n := round2 q
  let sign := if n < 0 then "-" else ""
  let m := n.natAbs
  sign ++ toString (m / 100) ++ "." ++ pad2 (m % 100)

/-- The policy evaluation tail of check_image_content: scan
high_risk_labels in order and reject on the first label whose aggregated
score strictly exceeds explicit_threshold; the moderate-risk check is
commented out in the source, so otherwise the content is accepted. -/
def evaluatePolicy (scores : ScoreMap) : Verdict :=
  match high_risk_labels.find?
      (fun label => decide (explicit_threshold < getScore scores label)) with
  | some label =>
    { appropriate := false
      scores := scores
      message := "Inappropriate content detected: " ++ label ++
        " (confidence: " ++ format2 (getScore scores label) ++ ")" }
  | none =>
    { appropriate := true
      scores := scores
      message := "Content appropriate for teen users" }

/-- Opaque handle to the external NudeNet model instance. -/
abbrev DetectorHandle := Nat

/-- Modelled from the spec: constructing the external NudeDetector model (a
third-party library call, not part of this repository) yields an opaque
handle. -/
def newDetector : DetectorHandle := 0

/-- The process-wide mutable context of the script: the import-time
dependency flag, the recorded import error, and the lazy global detector
handle. -/
structure ProcState where
  depsAvailable : Bool
  importError : String
  detector : Option DetectorHandle
deriving DecidableEq

/-- init_detector: raises when the dependencies failed to import, otherwise
constructs the model on first use (logging a notice to standard error) and
reuses the existing handle afterwards.  Returns the handle the global is
left bound to, together with the standard-error lines printed. -/
def init_detector (deps : Bool) (ierr : String) (det : Option DetectorHandle) :
    Except String (DetectorHandle × List String) :=
  if deps = false then
    Except.error ("Required dependencies not available: " ++ ierr)
  else
    match det with
    | none => Except.ok (newDetector, ["NudeNet detector initialized"])
    | some d => Except.ok (d, [])

/-- Value of a base64 alphabet character, none for everything else. -/
def b64CharVal (c : Char) : Option Nat :=
  if 'A' ≤ c ∧ c ≤ 'Z' then some (c.toNat - 65)
  else if 'a' ≤ c ∧ c ≤ 'z' then some (c.toNat - 97 + 26)
  else if '0' ≤ c ∧ c ≤ '9' then some (c.toNat - 48 + 52)
  else if c = '+' then some 62
  else if c = '/' then some 63
  else none

/-- Decode a list of 6-bit values into bytes, 4 values to 3 bytes, with a
shorter final group allowed. -/
def b64Groups : List Nat → Except String (List Nat)
  | [] => Except.ok []
  | [_] => Except.error "Invalid base64-encoded string"
  | [a, b] => Except.ok [a * 4 + b / 16]
  | [a, b, c] => Except.ok [a * 4 + b / 16, (b % 16) * 16 + c / 4]
  | a :: b :: c :: d :: rest =>
    (b64Groups rest).map
      (fun tail => (a * 4 + b / 16) :: ((b % 16) * 16 + c / 4) ::
        ((c % 4) * 64 + d) :: tail)

/-- Modelled from the spec: base64 decoding (the Python standard library
base64.b64decode, not part of this repository), which per the spec fails
with a decode error on malformed base64.  Characters outside the alphabet
and padding are discarded; a kept length that is not a multiple of four is
rejected as incorrect padding. -/
def b64decode (s : String) : Except String (List Nat) :=
  let kept := s.toList.filter (fun c => (b64CharVal c).isSome || c = '=')
  if kept.length % 4 = 0 then
    b64Groups (kept.filterMap b64CharVal)
  else
    Except.error "Incorrect padding"

/-- Opaque decoded pixel buffer (PIL image opened, converted to RGB and
turned into an array — all external library work). -/
structure PixelBuffer where
  rgb : List Nat
deriving DecidableEq

/-- The fail-closed verdict built by the catch-all handler of
check_image_content. -/
def failClosed (e : String) : Verdict :=
  { appropriate := false
    scores := []
    message := "Content filtering error: " ++ e }

/-- check_image_content: the try-block runs detector initialization, base64
decoding, image parsing and detection in sequence, then aggregates and
applies the policy; any stage failure is caught and converted to the
fail-closed verdict.  parse and detect stand for the external collaborators
(PIL and the NudeNet model); the result carries the verdict, the updated
process state (the lazy global) and the standard-error lines. -/
def check_image_content
    (parse : List Nat → Except String PixelBuffer)
    (detect : DetectorHandle → PixelBuffer → Except String (List Detection))
    (st : ProcState) (image_data_base64 : String) :
    Verdict × ProcState × List String :=
  match init_detector st.depsAvailable st.importError st.detector with
  | Except.error e => (failClosed e, st, [])
  | Except.ok (d, log) =>
    let st2 := { st with detector := some d }
    match (do
        let bytes ← b64decode image_data_base64
        let pix ← parse bytes
        detect d pix : Except String (List Detection)) with
    | Except.error e => (failClosed e, st2, log)
    | Except.ok detections => (evaluatePolicy (aggregate detections), st2, log)

/-- The usage verdict printed by main on wrong argument count. -/
def usageVerdict : Verdict :=
  { appropriate := false
    scores := []
    message := "Usage: python content-filter.py <base64_image_data>" }

/-- main: requires len(sys.argv) = 2 (program name plus exactly one
positional argument); on arity mismatch prints the usage verdict and exits
with status 1, otherwise classifies and prints the verdict, exiting with
status 0.  The result is (standard-output lines as verdicts, standard-error
lines, exit status). -/
def mainRun
    (parse : List Nat → Except String PixelBuffer)
    (detect : DetectorHandle → PixelBuffer → Except String (List Detection))
    (st : ProcState) (sysArgv : List String) :
    List Verdict × List String × Nat :=
  if sysArgv.length ≠ 2 then
    ([usageVerdict], [], 1)
  else
    let r := check_image_content parse detect st (sysArgv.getD 1 "")
    ([r.1], r.2.2, 0)

/-! Helper lemmas about the score aggregator. -/

theorem lookup_setScore (m : ScoreMap) (label k : String) (v : ℚ) :
    (setScore m label v).lookup k = if k = label then some v else m.lookup k := by
  induction m with
  | nil =>
    by_cases hk : k = label
    · subst hk
      simp [setScore, List.lookup]
    · have hb : (k == label) = false := by simp [hk]
      simp [setScore, List.lookup, hb, hk]
  | cons hd tl ih =>
    obtain ⟨a, b⟩ := hd
    by_cases hal : a = label
    · subst hal
      by_cases hk : k = a
      · subst hk
        simp [setScore, List.lookup]
      · have hb : (k == a) = false := by simp [hk]
        simp [setScore, List.lookup, hb, hk]
    · by_cases hk : k = a
      · subst hk
        have hkl : ¬k = label := hal
        simp [setScore, hal, List.lookup, hkl]
      · have hb : (k == a) = false := by simp [hk]
        simp [setScore, hal, List.lookup, hb, ih]

theorem getScore_setScore (m : ScoreMap) (label k : String) (v : ℚ) :
    getScore (setScore m label v) k = if k = label then v else getScore m k := by
  simp only [getScore, lookup_setScore]
  by_cases hk : k = label <;> simp [hk]

theorem lookup_foldl_aggStep (dets : List Detection) (acc : ScoreMap) (lab : String) :
    (dets.foldl aggStep acc).lookup lab =
      if lab ∈ dets.map Detection.cls ∨ (acc.lookup lab).isSome then
        some (((dets.filter (fun d => d.cls == lab)).map Detection.score).foldl max
          (getScore acc lab))
      else none := by
  induction dets generalizing acc with
  | nil =>
    cases h : acc.lookup lab <;> simp [getScore, h]
  | cons d rest ih =>
    rw [List.foldl_cons, ih]
    by_cases hc : d.cls = lab
    · have hlook : (List.lookup lab (aggStep acc d)).isSome = true := by
        rw [aggStep, lookup_setScore]
        simp [hc]
      have hget : getScore (aggStep acc d) lab = max (getScore acc lab) d.score := by
        rw [aggStep, getScore_setScore]
        simp [hc]
      rw [if_pos (Or.inr hlook), if_pos (Or.inl (by simp [hc]))]
      rw [List.filter_cons_of_pos (by simp [hc]), List.map_cons, List.foldl_cons, hget]
    · have hlook : List.lookup lab (aggStep acc d) = List.lookup lab acc := by
        rw [aggStep, lookup_setScore]
        exact if_neg (fun h => hc h.symm)
      have hget : getScore (aggStep acc d) lab = getScore acc lab := by
        rw [getScore, hlook, getScore]
      have hfil : List.filter (fun x => x.cls == lab) (d :: rest) =
          List.filter (fun x => x.cls == lab) rest :=
        List.filter_cons_of_neg (by simp [hc])
      rw [hlook, hget, hfil]
      have hiff : lab ∈ List.map Detection.cls (d :: rest) ↔ lab ∈ List.map Detection.cls rest := by
        simp only [List.map_cons, List.mem_cons]
        constructor
        · rintro (h | h)
          · exact absurd h.symm hc
          · exact h
        · exact Or.inr
      exact if_congr (or_congr_left hiff.symm) rfl rfl

theorem lookup_aggregate (dets : List Detection) (lab : String) :
    (aggregate dets).lookup lab =
      if lab ∈ dets.map Detection.cls then
        some (((dets.filter (fun d => d.cls == lab)).map Detection.score).foldl max 0)
      else none := by
  rw [aggregate, lookup_foldl_aggStep]
  simp [getScore]

theorem getScore_aggregate (dets : List Detection) (lab : String) :
    getScore (aggregate dets) lab =
      ((dets.filter (fun d => d.cls == lab)).map Detection.score).foldl max 0 := by
  rw [getScore, lookup_aggregate]
  by_cases hm : lab ∈ dets.map Detection.cls
  · simp [hm]
  · have hfil : dets.filter (fun d => d.cls == lab) = [] := by
      rw [List.filter_eq_nil_iff]
      intro d hd
      simp only [beq_iff_eq]
      intro hdl
      exact hm (List.mem_map.mpr ⟨d, hd, hdl⟩)
    simp [hm, hfil]

/-! Helper lemmas about folded maxima. -/

theorem le_foldl_max (l : List ℚ) (a : ℚ) : a ≤ l.foldl max a := by
  induction l generalizing a with
  | nil => exact le_refl a
  | cons x xs ih => exact le_trans (le_max_left a x) (ih (max a x))

theorem foldl_max_le_of_mem (l : List ℚ) (a x : ℚ) (hx : x ∈ l) : x ≤ l.foldl max a := by
  induction l generalizing a with
  | nil => cases hx
  | cons y ys ih =>
    rcases List.mem_cons.mp hx with h | h
    · subst h
      exact le_trans (le_max_right a x) (le_foldl_max ys (max a x))
    · exact ih (max a y) h

theorem foldl_max_attained (l : List ℚ) (a : ℚ) : l.foldl max a = a ∨ l.foldl max a ∈ l := by
  induction l generalizing a with
  | nil => exact Or.inl rfl
  | cons x xs ih =>
    rw [List.foldl_cons]
    rcases ih (max a x) with h | h
    · rcases max_choice a x with hm | hm
      · exact Or.inl (by rw [h, hm])
      · exact Or.inr (by rw [h, hm]; exact List.mem_cons_self x xs)
    · exact Or.inr (List.mem_cons_of_mem x h)

theorem perm_foldl_max {l1 l2 : List ℚ} (h : l1.Perm l2) (a : ℚ) :
    l1.foldl max a = l2.foldl max a :=
  h.foldl_eq' (fun x _ y _ z => Max.right_comm z x y) a

/-! Helper lemmas about the policy evaluator and the pipeline. -/

theorem append_len_ne (a b : String) (h : a.length ≠ 0) : (a ++ b).length ≠ 0 := by
  rw [String.length_append]
  omega

theorem ne_empty_of_len (a : String) (h : a.length ≠ 0) : a ≠ "" := by
  intro hc
  subst hc
  exact h rfl

theorem evaluatePolicy_message_ne (scores : ScoreMap) :
    (evaluatePolicy scores).message ≠ "" := by
  unfold evaluatePolicy
  cases high_risk_labels.find?
      (fun label => decide (explicit_threshold < getScore scores label)) with
  | none => simp
  | some label =>
    simp only
    apply ne_empty_of_len
    apply append_len_ne
    apply append_len_ne
    apply append_len_ne
    apply append_len_ne
    decide

theorem check_image_content_ok
    (parse : List Nat → Except String PixelBuffer)
    (detect : DetectorHandle → PixelBuffer → Except String (List Detection))
    (st : ProcState) (data : String) (d : DetectorHandle) (log : List String)
    (bytes : List Nat) (pix : PixelBuffer) (dets : List Detection)
    (hinit : init_detector st.depsAvailable st.importError st.detector = Except.ok (d, log))
    (hdec : b64decode data = Except.ok bytes)
    (hparse : parse bytes = Except.ok pix)
    (hdet : detect d pix = Except.ok dets) :
    check_image_content parse detect st data =
      (evaluatePolicy (aggregate dets), { st with detector := some d }, log) := by
  unfold check_image_content
  rw [hinit]
  simp [hdec, hparse, hdet, bind, Except.bind]

theorem check_image_content_initError
    (parse : List Nat → Except String PixelBuffer)
    (detect : DetectorHandle → PixelBuffer → Except String (List Detection))
    (st : ProcState) (data : String) (e : String)
    (hinit : init_detector st.depsAvailable st.importError st.detector = Except.error e) :
    check_image_content parse detect st data = (failClosed e, st, []) := by
  unfold check_image_content
  rw [hinit]

theorem check_image_content_decodeError
    (parse : List Nat → Except String PixelBuffer)
    (detect : DetectorHandle → PixelBuffer → Except String (List Detection))
    (st : ProcState) (data : String) (d : DetectorHandle) (log : List String) (e : String)
    (hinit : init_detector st.depsAvailable st.importError st.detector = Except.ok (d, log))
    (hdec : b64decode data = Except.error e) :
    check_image_content parse detect st data =
      (failClosed e, { st with detector := some d }, log) := by
  unfold check_image_content
  rw [hinit]
  simp [hdec, bind, Except.bind]

theorem check_image_content_parseError
    (parse : List Nat → Except String PixelBuffer)
    (detect : DetectorHandle → PixelBuffer → Except String (List Detection))
    (st : ProcState) (data : String) (d : DetectorHandle) (log : List String)
    (bytes : List Nat) (e : String)
    (hinit : init_detector st.depsAvailable st.importError st.detector = Except.ok (d, log))
    (hdec : b64decode data = Except.ok bytes)
    (hparse : parse bytes = Except.error e) :
    check_image_content parse detect st data =
      (failClosed e, { st with detector := some d }, log) := by
  unfold check_image_content
  rw [hinit]
  simp [hdec, hparse, bind, Except.bind]

theorem check_image_content_detectError
    (parse : List Nat → Except String PixelBuffer)
    (detect : DetectorHandle → PixelBuffer → Except String (List Detection))
    (st : ProcState) (data : String) (d : DetectorHandle) (log : List String)
    (bytes : List Nat) (pix : PixelBuffer) (e : String)
    (hinit : init_detector st.depsAvailable st.importError st.detector = Except.ok (d, log))
    (hdec : b64decode data = Except.ok bytes)
    (hparse : parse bytes = Except.ok pix)
    (hdet : detect d pix = Except.error e) :
    check_image_content parse detect st data =
      (failClosed e, { st with detector := some d }, log) := by
  unfold check_image_content
  rw [hinit]
  simp [hdec, hparse, hdet, bind, Except.bind]

theorem check_message_ne
    (parse : List Nat → Except String PixelBuffer)
    (detect : DetectorHandle → PixelBuffer → Except String (List Detection))
    (st : ProcState) (data : String) :
    (check_image_content parse detect st data).1.message ≠ "" := by
  unfold check_image_content
  split
  · exact ne_empty_of_len _ (append_len_ne _ _ (by decide))
  · dsimp only
    split
    · exact ne_empty_of_len _ (append_len_ne _ _ (by decide))
    · exact evaluatePolicy_message_ne _

theorem init_detector_log (deps : Bool) (ierr : String) (det : Option DetectorHandle)
    (d : DetectorHandle) (log : List String)
    (h : init_detector deps ierr det = Except.ok (d, log)) :
    log = [] ∨ log = ["NudeNet detector initialized"] := by
  unfold init_detector at h
  by_cases hd : deps = false
  · rw [if_pos hd] at h
    cases h
  · rw [if_neg hd] at h
    cases det with
    | none =>
      simp only [Except.ok.injEq, Prod.mk.injEq] at h
      exact Or.inr h.2.symm
    | some d0 =>
      simp only [Except.ok.injEq, Prod.mk.injEq] at h
      exact Or.inl h.2.symm

theorem check_stderr
    (parse : List Nat → Except String PixelBuffer)
    (detect : DetectorHandle → PixelBuffer → Except String (List Detection))
    (st : ProcState) (data : String) :
    (check_image_content parse detect st data).2.2 = [] ∨
    (check_image_content parse detect st data).2.2 = ["NudeNet detector initialized"] := by
  unfold check_image_content
  cases hinit : init_detector st.depsAvailable st.importError st.detector with
  | error e => exact Or.inl rfl
  | ok dl =>
    obtain ⟨d, log⟩ := dl
    have hl := init_detector_log st.depsAvailable st.importError st.detector d log hinit
    dsimp only
    split <;> exact hl

/-- Concrete image-parsing collaborator used to exercise the pipeline. -/
def parseStub : List Nat → Except String PixelBuffer :=
  fun bytes => Except.ok ⟨bytes⟩

/-- Concrete detector collaborator returning a fixed detection list, used to
exercise the pipeline. -/
def detectStub (dets : List Detection) :
    DetectorHandle → PixelBuffer → Except String (List Detection) :=
  fun _ _ => Except.ok dets

/-! The claims. -/

/-- C1: for every aggregated score map, if any label of the fixed high-risk
set has confidence strictly above the explicit threshold 0.2, then
check_image_content rejects with appropriate = false, a message naming the
first such label in the fixed iteration order together with its confidence
formatted to two decimal places, and the full aggregated score map. -/
theorem highRisk_rejects_first
    (parse : List Nat → Except String PixelBuffer)
    (detect : DetectorHandle → PixelBuffer → Except String (List Detection))
    (st : ProcState) (data : String) (d : DetectorHandle) (log : List String)
    (bytes : List Nat) (pix : PixelBuffer) (dets : List Detection)
    (hinit : init_detector st.depsAvailable st.importError st.detector = Except.ok (d, log))
    (hdec : b64decode data = Except.ok bytes)
    (hparse : parse bytes = Except.ok pix)
    (hdet : detect d pix = Except.ok dets)
    (hsome : ∃ l ∈ high_risk_labels, explicit_threshold < getScore (aggregate dets) l) :
    ∃ label,
      high_risk_labels.find?
        (fun l => decide (explicit_threshold < getScore (aggregate dets) l)) = some label ∧
      explicit_threshold < getScore (aggregate dets) label ∧
      (check_image_content parse detect st data).1 =
        { appropriate := false
          scores := aggregate dets
          message := "Inappropriate content detected: " ++ label ++
            " (confidence: " ++ format2 (getScore (aggregate dets) label) ++ ")" } := by
  obtain ⟨l, hl, hgt⟩ := hsome
  have hex : (high_risk_labels.find?
      (fun l => decide (explicit_threshold < getScore (aggregate dets) l))).isSome := by
    rw [List.find?_isSome]
    exact ⟨l, hl, by simpa using hgt⟩
  obtain ⟨label, hfind⟩ := Option.isSome_iff_exists.mp hex
  refine ⟨label, hfind, ?_, ?_⟩
  · have := List.find?_some hfind
    simpa using this
  · rw [check_image_content_ok parse detect st data d log bytes pix dets hinit hdec hparse hdet]
    show evaluatePolicy (aggregate dets) = _
    unfold evaluatePolicy
    rw [hfind]

theorem highRisk_rejects_first_witness :
    ∃ label,
      high_risk_labels.find?
        (fun l => decide (explicit_threshold <
          getScore (aggregate [⟨"EXPOSED_GENITALIA_F", mkRat 9 10⟩]) l)) = some label ∧
      explicit_threshold <
        getScore (aggregate [⟨"EXPOSED_GENITALIA_F", mkRat 9 10⟩]) label ∧
      (check_image_content parseStub (detectStub [⟨"EXPOSED_GENITALIA_F", mkRat 9 10⟩])
          ⟨true, "", some newDetector⟩ "").1 =
        { appropriate := false
          scores := aggregate [⟨"EXPOSED_GENITALIA_F", mkRat 9 10⟩]
          message := "Inappropriate content detected: " ++ label ++
            " (confidence: " ++
            format2 (getScore (aggregate [⟨"EXPOSED_GENITALIA_F", mkRat 9 10⟩]) label) ++
            ")" } :=
  highRisk_rejects_first parseStub (detectStub [⟨"EXPOSED_GENITALIA_F", mkRat 9 10⟩])
    ⟨true, "", some newDetector⟩ "" newDetector [] [] ⟨[]⟩
    [⟨"EXPOSED_GENITALIA_F", mkRat 9 10⟩] rfl rfl rfl rfl (by decide)

/-- C2: whenever any stage of the pipeline (detector initialization, base64
decoding, image parsing, detection) fails with an error, check_image_content
returns the fail-closed verdict: appropriate = false, empty score map, and a
non-empty message containing the error text. -/
theorem anyStageError_failClosed
    (parse : List Nat → Except String PixelBuffer)
    (detect : DetectorHandle → PixelBuffer → Except String (List Detection))
    (st : ProcState) (data e : String)
    (h : init_detector st.depsAvailable st.importError st.detector = Except.error e ∨
      ∃ d log,
        init_detector st.depsAvailable st.importError st.detector = Except.ok (d, log) ∧
        (b64decode data = Except.error e ∨
          ∃ bytes, b64decode data = Except.ok bytes ∧
            (parse bytes = Except.error e ∨
              ∃ pix, parse bytes = Except.ok pix ∧ detect d pix = Except.error e))) :
    (check_image_content parse detect st data).1 = failClosed e ∧
    (check_image_content parse detect st data).1.appropriate = false ∧
    (check_image_content parse detect st data).1.scores = [] ∧
    (check_image_content parse detect st data).1.message ≠ "" ∧
    ∃ pre, (check_image_content parse detect st data).1.message = pre ++ e := by
  have hmain : (check_image_content parse detect st data).1 = failClosed e := by
    rcases h with hinit | ⟨d, log, hinit, hrest⟩
    · rw [check_image_content_initError parse detect st data e hinit]
    · rcases hrest with hdec | ⟨bytes, hdec, hrest⟩
      · rw [check_image_content_decodeError parse detect st data d log e hinit hdec]
      · rcases hrest with hparse | ⟨pix, hparse, hdet⟩
        · rw [check_image_content_parseError parse detect st data d log bytes e hinit hdec
            hparse]
        · rw [check_image_content_detectError parse detect st data d log bytes pix e hinit
            hdec hparse hdet]
  refine ⟨hmain, ?_, ?_, ?_, ?_⟩ <;> rw [hmain]
  · rfl
  · rfl
  · exact ne_empty_of_len _ (append_len_ne _ _ (by decide))
  · exact ⟨"Content filtering error: ", rfl⟩

theorem anyStageError_failClosed_witness :
    (check_image_content parseStub (detectStub []) ⟨true, "", some newDetector⟩
        "not-valid-base64").1.appropriate = false ∧
    (check_image_content parseStub (detectStub []) ⟨true, "", some newDetector⟩
        "not-valid-base64").1.message ≠ "" := by
  have h := anyStageError_failClosed parseStub (detectStub [])
    ⟨true, "", some newDetector⟩ "not-valid-base64" "Incorrect padding"
    (Or.inr ⟨newDetector, [], rfl, Or.inl rfl⟩)
  exact ⟨h.2.1, h.2.2.2.1⟩

/-- C3: when every high-risk label has aggregated confidence at most the
explicit threshold 0.2, check_image_content accepts, whatever the
confidences of all other labels are (the moderate-risk check is disabled in
the source). -/
theorem allHighRiskLow_accepts
    (parse : List Nat → Except String PixelBuffer)
    (detect : DetectorHandle → PixelBuffer → Except String (List Detection))
    (st : ProcState) (data : String) (d : DetectorHandle) (log : List String)
    (bytes : List Nat) (pix : PixelBuffer) (dets : List Detection)
    (hinit : init_detector st.depsAvailable st.importError st.detector = Except.ok (d, log))
    (hdec : b64decode data = Except.ok bytes)
    (hparse : parse bytes = Except.ok pix)
    (hdet : detect d pix = Except.ok dets)
    (hlow : ∀ l ∈ high_risk_labels, getScore (aggregate dets) l ≤ explicit_threshold) :
    (check_image_content parse detect st data).1 =
      { appropriate := true
        scores := aggregate dets
        message := "Content appropriate for teen users" } := by
  rw [check_image_content_ok parse detect st data d log bytes pix dets hinit hdec hparse hdet]
  show evaluatePolicy (aggregate dets) = _
  unfold evaluatePolicy
  have hnone : high_risk_labels.find?
      (fun label => decide (explicit_threshold < getScore (aggregate dets) label)) = none := by
    rw [List.find?_eq_none]
    intro x hx
    simp only [decide_eq_true_eq, not_lt]
    exact hlow x hx
  rw [hnone]

theorem allHighRiskLow_accepts_witness :
    (check_image_content parseStub (detectStub [⟨"EXPOSED_ARMPITS", mkRat 19 20⟩])
        ⟨true, "", some newDetector⟩ "").1 =
      { appropriate := true
        scores := aggregate [⟨"EXPOSED_ARMPITS", mkRat 19 20⟩]
        message := "Content appropriate for teen users" } :=
  allHighRiskLow_accepts parseStub (detectStub [⟨"EXPOSED_ARMPITS", mkRat 19 20⟩])
    ⟨true, "", some newDetector⟩ "" newDetector [] [] ⟨[]⟩
    [⟨"EXPOSED_ARMPITS", mkRat 19 20⟩] rfl rfl rfl rfl (by decide)

/-- C4: the aggregator stores, at every label occurring in the detections,
exactly the maximum confidence over the detections carrying that label
(attained by one of them and an upper bound for all of them), stores nothing
at any other label, and the resulting map is invariant, lookup for lookup,
under any permutation of the detection sequence. -/
theorem aggregate_max_and_permInvariant
    (dets : List Detection) (hpos : ∀ d ∈ dets, 0 ≤ d.score) :
    (∀ lab, lab ∈ dets.map Detection.cls →
      (∃ d, d ∈ dets ∧ d.cls = lab ∧ getScore (aggregate dets) lab = d.score) ∧
      (∀ d, d ∈ dets → d.cls = lab → d.score ≤ getScore (aggregate dets) lab) ∧
      (aggregate dets).lookup lab = some (getScore (aggregate dets) lab)) ∧
    (∀ lab, lab ∉ dets.map Detection.cls → (aggregate dets).lookup lab = none) ∧
    (∀ dets2, dets.Perm dets2 → ∀ lab,
      (aggregate dets).lookup lab = (aggregate dets2).lookup lab) := by
  refine ⟨?_, ?_, ?_⟩
  · intro lab hmem
    have hval := getScore_aggregate dets lab
    refine ⟨?_, ?_, ?_⟩
    · rcases foldl_max_attained
          ((dets.filter (fun d => d.cls == lab)).map Detection.score) 0 with h0 | hin
      · obtain ⟨d, hd, hdl⟩ := List.mem_map.mp hmem
        have hdf : d ∈ dets.filter (fun d => d.cls == lab) :=
          List.mem_filter.mpr ⟨hd, by simp [hdl]⟩
        have hds : d.score ∈ (dets.filter (fun d => d.cls == lab)).map Detection.score :=
          List.mem_map_of_mem Detection.score hdf
        have hle : d.score ≤ 0 := by
          have := foldl_max_le_of_mem _ 0 d.score hds
          rw [h0] at this
          exact this
        have hge : 0 ≤ d.score := hpos d hd
        exact ⟨d, hd, hdl, by rw [hval, h0]; exact le_antisymm hge hle⟩
      · obtain ⟨d, hdf, hds⟩ := List.mem_map.mp hin
        obtain ⟨hd, hdl⟩ := List.mem_filter.mp hdf
        exact ⟨d, hd, by simpa using hdl, by rw [hval, hds]⟩
    · intro d hd hdl
      rw [hval]
      exact foldl_max_le_of_mem _ 0 d.score
        (List.mem_map_of_mem Detection.score (List.mem_filter.mpr ⟨hd, by simp [hdl]⟩))
    · rw [lookup_aggregate, if_pos hmem, hval]
  · intro lab hmem
    rw [lookup_aggregate, if_neg hmem]
  · intro dets2 hperm lab
    rw [lookup_aggregate, lookup_aggregate]
    have hmemiff : lab ∈ dets.map Detection.cls ↔ lab ∈ dets2.map Detection.cls :=
      (hperm.map Detection.cls).mem_iff
    have hfold : ((dets.filter (fun d => d.cls == lab)).map Detection.score).foldl max 0 =
        ((dets2.filter (fun d => d.cls == lab)).map Detection.score).foldl max 0 :=
      perm_foldl_max ((hperm.filter (fun d => d.cls == lab)).map Detection.score) 0
    by_cases hm : lab ∈ dets.map Detection.cls
    · rw [if_pos hm, if_pos (hmemiff.mp hm), hfold]
    · rw [if_neg hm, if_neg (fun hx => hm (hmemiff.mpr hx))]

theorem aggregate_max_and_permInvariant_witness :
    (aggregate [⟨"A", mkRat 1 2⟩, ⟨"B", mkRat 1 3⟩, ⟨"A", mkRat 3 4⟩]).lookup "A" =
      (aggregate [⟨"A", mkRat 3 4⟩, ⟨"B", mkRat 1 3⟩, ⟨"A", mkRat 1 2⟩]).lookup "A" :=
  (aggregate_max_and_permInvariant
      [⟨"A", mkRat 1 2⟩, ⟨"B", mkRat 1 3⟩, ⟨"A", mkRat 3 4⟩] (by decide)).2.2
    [⟨"A", mkRat 3 4⟩, ⟨"B", mkRat 1 3⟩, ⟨"A", mkRat 1 2⟩] (by decide) "A"

/-- C5: the CLI entry point requires exactly one positional argument; on any
other arity it prints the fail-closed usage verdict and exits with status 1,
and with exactly one argument it prints the classification verdict as the
single output line and exits with status 0, whatever that verdict is. -/
theorem cli_arity_and_exit
    (parse : List Nat → Except String PixelBuffer)
    (detect : DetectorHandle → PixelBuffer → Except String (List Detection))
    (st : ProcState) (prog : String) (args : List String) :
    (args.length ≠ 1 → mainRun parse detect st (prog :: args) = ([usageVerdict], [], 1)) ∧
    (∀ a, args = [a] → mainRun parse detect st (prog :: args) =
      ([(check_image_content parse detect st a).1],
        (check_image_content parse detect st a).2.2, 0)) := by
  constructor
  · intro hne
    unfold mainRun
    rw [if_pos (by simp only [List.length_cons]; omega)]
  · intro a ha
    subst ha
    unfold mainRun
    rw [if_neg (by simp)]
    rfl

theorem cli_arity_and_exit_witness :
    mainRun parseStub (detectStub []) ⟨true, "", some newDetector⟩
        ["content-filter.py"] = ([usageVerdict], [], 1) ∧
    mainRun parseStub (detectStub []) ⟨true, "", some newDetector⟩
        ["content-filter.py", "x", "y"] = ([usageVerdict], [], 1) ∧
    mainRun parseStub (detectStub []) ⟨true, "", some newDetector⟩
        ["content-filter.py", "not-valid-base64"] =
      ([(check_image_content parseStub (detectStub []) ⟨true, "", some newDetector⟩
          "not-valid-base64").1],
        (check_image_content parseStub (detectStub []) ⟨true, "", some newDetector⟩
          "not-valid-base64").2.2, 0) :=
  ⟨(cli_arity_and_exit parseStub (detectStub []) ⟨true, "", some newDetector⟩
      "content-filter.py" []).1 (by decide),
   (cli_arity_and_exit parseStub (detectStub []) ⟨true, "", some newDetector⟩
      "content-filter.py" ["x", "y"]).1 (by decide),
   (cli_arity_and_exit parseStub (detectStub []) ⟨true, "", some newDetector⟩
      "content-filter.py" ["not-valid-base64"]).2 "not-valid-base64" rfl⟩

/-- C6: on the example detections EXPOSED_BREAST_F at 0.25 and FACE_F at
0.9, the aggregator produces exactly those two entries and the pipeline
rejects with a message mentioning EXPOSED_BREAST_F with confidence 0.25. -/
theorem breastExample_rejected :
    aggregate [⟨"EXPOSED_BREAST_F", mkRat 1 4⟩, ⟨"FACE_F", mkRat 9 10⟩] =
      [("EXPOSED_BREAST_F", mkRat 1 4), ("FACE_F", mkRat 9 10)] ∧
    (check_image_content parseStub
        (detectStub [⟨"EXPOSED_BREAST_F", mkRat 1 4⟩, ⟨"FACE_F", mkRat 9 10⟩])
        ⟨true, "", some newDetector⟩ "").1 =
      { appropriate := false
        scores := [("EXPOSED_BREAST_F", mkRat 1 4), ("FACE_F", mkRat 9 10)]
        message := "Inappropriate content detected: EXPOSED_BREAST_F (confidence: 0.25)" } ∧
    (∃ pre post,
      (check_image_content parseStub
          (detectStub [⟨"EXPOSED_BREAST_F", mkRat 1 4⟩, ⟨"FACE_F", mkRat 9 10⟩])
          ⟨true, "", some newDetector⟩ "").1.message =
        pre ++ "EXPOSED_BREAST_F (confidence: 0.25)" ++ post) :=
  ⟨by decide, by decide, ⟨"Inappropriate content detected: ", "", by decide⟩⟩

/-- C7: init_detector is idempotent: with dependencies available, the first
call constructs the model and yields a handle (logging the notice exactly
then), every later call returns the existing handle unchanged without
constructing anything, and with dependencies unavailable every call fails
without producing a handle. -/
theorem init_detector_idempotent (ierr : String) :
    init_detector true ierr none =
      Except.ok (newDetector, ["NudeNet detector initialized"]) ∧
    (∀ d, init_detector true ierr (some d) = Except.ok (d, [])) ∧
    (∀ det, init_detector false ierr det =
      Except.error ("Required dependencies not available: " ++ ierr)) := by
  refine ⟨rfl, fun d => rfl, fun det => ?_⟩
  unfold init_detector
  rw [if_pos rfl]

/-- C8: when the pipeline succeeds and the detector returns no detections,
check_image_content accepts with an empty score map and the fixed
acceptance message. -/
theorem emptyDetections_accepted
    (parse : List Nat → Except String PixelBuffer)
    (detect : DetectorHandle → PixelBuffer → Except String (List Detection))
    (st : ProcState) (data : String) (d : DetectorHandle) (log : List String)
    (bytes : List Nat) (pix : PixelBuffer)
    (hinit : init_detector st.depsAvailable st.importError st.detector = Except.ok (d, log))
    (hdec : b64decode data = Except.ok bytes)
    (hparse : parse bytes = Except.ok pix)
    (hdet : detect d pix = Except.ok []) :
    (check_image_content parse detect st data).1 =
      { appropriate := true
        scores := []
        message := "Content appropriate for teen users" } := by
  rw [check_image_content_ok parse detect st data d log bytes pix [] hinit hdec hparse hdet]
  show evaluatePolicy (aggregate []) = _
  decide

theorem emptyDetections_accepted_witness :
    (check_image_content parseStub (detectStub []) ⟨true, "", some newDetector⟩ "").1 =
      { appropriate := true
        scores := []
        message := "Content appropriate for teen users" } :=
  emptyDetections_accepted parseStub (detectStub []) ⟨true, "", some newDetector⟩ ""
    newDetector [] [] ⟨[]⟩ rfl rfl rfl rfl

/-- C9: every verdict the program produces is a Verdict record, a structure
with exactly the fields appropriate (a Bool), scores (a score map) and
message (a String), and on every path — rejection, acceptance, fail-closed
error and CLI usage error — the message is non-empty. -/
theorem verdict_paths_wellFormed
    (parse : List Nat → Except String PixelBuffer)
    (detect : DetectorHandle → PixelBuffer → Except String (List Detection))
    (st : ProcState) (data : String) (sysArgv : List String) :
    (check_image_content parse detect st data).1.message ≠ "" ∧
    usageVerdict.message ≠ "" ∧
    ∀ v, v ∈ (mainRun parse detect st sysArgv).1 → v.message ≠ "" := by
  refine ⟨check_message_ne parse detect st data, by decide, ?_⟩
  intro v hv
  unfold mainRun at hv
  by_cases hl : sysArgv.length ≠ 2
  · rw [if_pos hl] at hv
    rw [List.mem_singleton.mp hv]
    decide
  · rw [if_neg hl] at hv
    rw [List.mem_singleton.mp hv]
    exact check_message_ne parse detect st (sysArgv.getD 1 "")

theorem verdict_paths_wellFormed_witness :
    usageVerdict.message ≠ "" :=
  (verdict_paths_wellFormed parseStub (detectStub []) ⟨true, "", some newDetector⟩ ""
    ["content-filter.py"]).2.2 usageVerdict (by decide)

/-- C10: on a run with exactly one CLI argument, standard output receives
exactly one line, the classification verdict; the only line ever written to
standard error is the detector-initialization notice, which never appears on
standard output (standard output holds verdicts only). -/
theorem single_stdout_line_and_stderr_notice
    (parse : List Nat → Except String PixelBuffer)
    (detect : DetectorHandle → PixelBuffer → Except String (List Detection))
    (st : ProcState) (prog a : String) :
    (mainRun parse detect st [prog, a]).1 =
      [(check_image_content parse detect st a).1] ∧
    (mainRun parse detect st [prog, a]).1.length = 1 ∧
    ∀ s, s ∈ (mainRun parse detect st [prog, a]).2.1 →
      s = "NudeNet detector initialized" := by
  have hrun : mainRun parse detect st [prog, a] =
      ([(check_image_content parse detect st a).1],
        (check_image_content parse detect st a).2.2, 0) := by
    unfold mainRun
    rw [if_neg (by simp)]
    rfl
  refine ⟨by rw [hrun], by rw [hrun]; rfl, ?_⟩
  intro s hs
  rw [hrun] at hs
  rcases check_stderr parse detect st a with h | h
  · rw [h] at hs
    cases hs
  · rw [h] at hs
    exact List.mem_singleton.mp hs

theorem single_stdout_line_and_stderr_notice_witness :
    (mainRun parseStub (detectStub []) ⟨true, "", none⟩ ["content-filter.py", "x"]).1.length
      = 1 ∧
    "NudeNet detector initialized" = "NudeNet detector initialized" :=
  ⟨(single_stdout_line_and_stderr_notice parseStub (detectStub []) ⟨true, "", none⟩
      "content-filter.py" "x").2.1,
   (single_stdout_line_and_stderr_notice parseStub (detectStub []) ⟨true, "", none⟩
      "content-filter.py" "x").2.2 "NudeNet detector initialized" (by decide)⟩
